import Mathlib

/-!
Verification of the warm-call-transfer frontend (Next.js / LiveKit demo).

The development shallowly embeds the orchestration logic of
`src/frontend/pages/index.js` (the agent-A room page with
`initiateWarmTransfer`, `speakSummary`, `completeTransfer`,
`moveCallerToAgentB`, `cancelTransfer`), the session-handle wrapper
`src/frontend/components/LiveRoom.jsx` (`connectToRoom`,
`disconnectFromRoom`), and the three API routes
(`/api/transfer`, `/api/move-caller`, `/api/token`).

Asynchronous external calls (fetch, room connect, speech synthesis,
token mint) are modelled by passing their outcomes as explicit
arguments; observable side effects (room disconnects, scheduled
timers, network requests, speech start/cancel) are collected in an
ordered effect list.  React `useState` setters become record updates
on an explicit page state.
-/

namespace WarmTransfer

/-- Models JavaScript string `.includes` / `.trim` prerequisites:
character-list prefix test (needle first, haystack second). -/
def charsStartWith : List Char → List Char → Bool
  | [], _ => true
  | _ :: _, [] => false
  | a :: as, b :: bs => a == b && charsStartWith as bs

/-- Does the needle occur as a contiguous substring of the haystack? -/
def charsContain (needle : List Char) : List Char → Bool
  | [] => charsStartWith needle []
  | c :: cs => charsStartWith needle (c :: cs) || charsContain needle cs

/-- Model of JavaScript `hay.includes(needle)`. -/
def jsIncludes (hay needle : String) : Bool :=
  charsContain needle.data hay.data

/-- Whitespace characters removed by JavaScript `.trim()` (the ones that
occur in this code base). -/
def isJsSpace (c : Char) : Bool :=
  c == ' ' || c == '\t' || c == '\n' || c == '\r'

/-- Drop leading whitespace from a character list. -/
def dropLeadingSpaces : List Char → List Char
  | [] => []
  | c :: cs => if isJsSpace c then dropLeadingSpaces cs else c :: cs

/-- Model of JavaScript `s.trim()`. -/
def jsTrim (s : String) : String :=
  String.mk ((dropLeadingSpaces (dropLeadingSpaces s.data.reverse).reverse))

/-- JavaScript truthiness of an optional string field of a request body
(`undefined` and the empty string are falsy). -/
def jsTruthy : Option String → Bool
  | none => false
  | some s => !(s == "")

/-- Model of JavaScript `a || fallback` for an optional string `a`
(used for `error.response.data?.detail || '...'`). -/
def jsOr (a : Option String) (fallback : String) : String :=
  match a with
  | none => fallback
  | some s => if s == "" then fallback else s

/-- Outcome of an awaited asynchronous call: resolved value or a thrown
error message. -/
inductive Outcome (α : Type)
  | ok (value : α)
  | err (msg : String)
deriving DecidableEq, Repr

/-- Response payload of the `/api/transfer` route, as consumed by the
room page (`transferResult`). -/
structure TransferResult where
  summary : String
  newRoom : String
  agentAToken : String
  agentBToken : String
  wsUrl : String
deriving DecidableEq, Repr

/-- The JSON body `initiateWarmTransfer` sends to `/api/transfer`
(index.js lines 454-460). -/
structure TransferFetchBody where
  fromRoom : String
  agentA : String
  agentB : String
  transcript : Option String
  summary : Option String
deriving DecidableEq, Repr

/-- Observable side effects of the room-page handlers, in program
order.  `scheduleSpeak`, `scheduleAck`, `scheduleRelocCleanup` and
`scheduleLegacyCleanup` are the `setTimeout` registrations with their
millisecond delays. -/
inductive Effect
  | fetchTransfer (body : TransferFetchBody)
  | connectSecondary (wsUrl token : String)
  | enableMicSecondary
  | scheduleSpeak (delayMs : Nat) (text : String)
  | speechSpeak (text : String)
  | speechCancel
  | fetchMoveCaller (callerIdentity newRoom : String)
  | scheduleAck (delayMs : Nat)
  | disconnectPrimary
  | disconnectSecondary
  | scheduleRelocCleanup (delayMs : Nat)
  | scheduleLegacyCleanup (delayMs : Nat)
deriving DecidableEq, Repr

/-- The room page's React state (`RoomPage` in index.js).  `primaryRef`
and `secondaryRef` model whether `primaryRoomRef.current` /
`secondaryRoomRef.current` are non-null; `primaryConnected` tracks the
source room connection state observed through disconnect effects. -/
structure PageState where
  roomId : String
  agentIdentity : String
  agentBIdentity : String
  callerIdentity : String
  transcript : String
  isTransferring : Bool
  transferStep : String
  transferError : String
  transferData : Option TransferResult
  isMovingCaller : Bool
  isSpeaking : Bool
  speechSupported : Bool
  primaryRef : Bool
  primaryConnected : Bool
  secondaryRef : Bool
deriving DecidableEq, Repr

/-- The body built by `initiateWarmTransfer` (index.js lines 454-460):
`transcript: transcript.trim() || undefined`,
`summary: transcript.trim() ? undefined : 'Call transfer initiated by Agent A'`. -/
def buildTransferBody (s : PageState) : TransferFetchBody :=
  { fromRoom := s.roomId
    agentA := s.agentIdentity
    agentB := s.agentBIdentity
    transcript := if jsTrim s.transcript = "" then none else some (jsTrim s.transcript)
    summary := if jsTrim s.transcript = "" then some "Call transfer initiated by Agent A" else none }

/-- `initiateWarmTransfer` (index.js lines 436-504).  `resp` is the
outcome of the `/api/transfer` fetch, `conn` the outcome of
`secondaryRoom.connect`; the microphone enable is attempted
unconditionally and its failure only logged. -/
def initiateWarmTransfer (s : PageState) (resp : Outcome TransferResult)
    (conn : Outcome Unit) : PageState × List Effect :=
  if jsTrim s.agentBIdentity = "" then
    ({ s with transferError := "Please enter Agent B identity" }, [])
  else
    let body := buildTransferBody s
    let s1 := { s with isTransferring := true, transferError := "",
                       transferStep := "Creating transfer room..." }
    match resp with
    | Outcome.err msg =>
        ({ s1 with transferError := msg, transferStep := "" },
         [Effect.fetchTransfer body])
    | Outcome.ok tr =>
        let s2 := { s1 with transferData := some tr, secondaryRef := true,
                            transferStep := "Connecting to handoff room..." }
        match conn with
        | Outcome.err msg =>
            ({ s2 with transferError := msg, transferStep := "" },
             [Effect.fetchTransfer body,
              Effect.connectSecondary tr.wsUrl tr.agentAToken])
        | Outcome.ok _ =>
            ({ s2 with transferStep := "Connected to Agent B room. Waiting for Agent B..." },
             [Effect.fetchTransfer body,
              Effect.connectSecondary tr.wsUrl tr.agentAToken,
              Effect.enableMicSecondary,
              Effect.scheduleSpeak 2000 tr.summary])

/-- `speakSummary` (index.js lines 506-541): the synchronous part up to
`window.speechSynthesis.speak`. -/
def speakSummary (s : PageState) (summary : String) : PageState × List Effect :=
  if s.speechSupported = false then
    ({ s with transferStep := "Speech synthesis not supported. Please manually explain to Agent B.",
              isTransferring := false }, [])
  else
    ({ s with transferStep := "Speaking summary to Agent B...", isSpeaking := true },
     [Effect.speechSpeak summary])

/-- `utterance.onend` (index.js lines 527-531). -/
def onSpeakDone (s : PageState) : PageState × List Effect :=
  ({ s with isSpeaking := false,
            transferStep := "Summary delivered. Ready to complete transfer." }, [])

/-- `utterance.onerror` (index.js lines 533-537). -/
def onSpeakFail (s : PageState) : PageState × List Effect :=
  ({ s with isSpeaking := false,
            transferStep := "Speech failed. Please manually explain to Agent B." }, [])

/-- `completeTransfer` (index.js lines 543-570): the legacy completion
path — disconnect the primary room immediately, then schedule the
secondary-room cleanup after 5000 ms. -/
def completeTransfer (s : PageState) : PageState × List Effect :=
  if s.primaryRef then
    ({ s with primaryConnected := false,
              transferStep := "Transfer completed! Agent B should now handle the caller." },
     [Effect.disconnectPrimary, Effect.scheduleLegacyCleanup 5000])
  else
    ({ s with transferStep := "Transfer completed! Agent B should now handle the caller." },
     [Effect.scheduleLegacyCleanup 5000])

/-- The 5000 ms cleanup callback scheduled by `completeTransfer`
(index.js lines 557-564). -/
def onLegacyCleanup (s : PageState) : PageState × List Effect :=
  ({ s with isTransferring := false, transferStep := "" },
   if s.secondaryRef then [Effect.disconnectSecondary] else [])

/-- `moveCallerToAgentB` (index.js lines 608-714) up to the point where
the simulated caller-move timer is registered.  `tok` is the outcome of
the `/api/move-caller` fetch. -/
def moveCallerToAgentB (s : PageState) (tok : Outcome Unit) : PageState × List Effect :=
  match s.transferData with
  | none => ({ s with transferError := "Missing transfer data or caller identity" }, [])
  | some td =>
    if jsTrim s.callerIdentity = "" then
      ({ s with transferError := "Missing transfer data or caller identity" }, [])
    else
      let s1 := { s with isMovingCaller := true,
                         transferStep := "Moving caller to Agent B..." }
      match tok with
      | Outcome.err msg =>
          ({ s1 with transferError := "Failed to move caller: " ++ msg,
                     isMovingCaller := false },
           [Effect.fetchMoveCaller s.callerIdentity td.newRoom])
      | Outcome.ok _ =>
          ({ s1 with transferStep := "Caller token generated. In production, caller client would now reconnect..." },
           [Effect.fetchMoveCaller s.callerIdentity td.newRoom,
            Effect.scheduleAck 2000])

/-- The 2000 ms simulated caller-move callback of `moveCallerToAgentB`
(index.js lines 648-676): this is where the relocation acknowledgement
arrives and the primary room is disconnected. -/
def onRelocAck (s : PageState) : PageState × List Effect :=
  if s.primaryRef then
    ({ s with primaryConnected := false,
              transferStep := "Transfer completed! Caller is now with Agent B." },
     [Effect.disconnectPrimary, Effect.scheduleRelocCleanup 3000])
  else
    ({ s with transferStep := "Transfer completed! Caller is now with Agent B." },
     [Effect.scheduleRelocCleanup 3000])

/-- The 3000 ms handoff-room cleanup callback inside the simulated
caller move (index.js lines 659-668). -/
def onRelocCleanup (s : PageState) : PageState × List Effect :=
  ({ s with isTransferring := false, isMovingCaller := false,
            transferStep := "", transferData := none },
   if s.secondaryRef then [Effect.disconnectSecondary] else [])

/-- `cancelTransfer` (index.js lines 716-734). -/
def cancelTransfer (s : PageState) : PageState × List Effect :=
  ({ s with secondaryRef := false, isSpeaking := false, isTransferring := false,
            transferStep := "", transferData := none, transferError := "",
            isMovingCaller := false },
   (if s.secondaryRef then [Effect.disconnectSecondary] else []) ++
   (if s.isSpeaking then [Effect.speechCancel] else []))

/-- Gating of the completion action buttons (index.js line 917):
`transferStep.includes('Ready to complete')` guards both
`Move Caller to Agent B` and `Complete (Legacy)`. -/
def actionButtonsVisible (s : PageState) : Bool :=
  jsIncludes s.transferStep "Ready to complete"

/-- The discrete events the room page reacts to: operator actions,
resolved fetches, speech callbacks and fired timers. -/
inductive Action
  | initiate (resp : Outcome TransferResult) (conn : Outcome Unit)
  | speakStart (summary : String)
  | speakDone
  | speakFail
  | legacy
  | legacyCleanup
  | relocate (tok : Outcome Unit)
  | relocAck
  | relocCleanup
  | cancel
deriving DecidableEq, Repr

/-- Dispatch one event to its handler. -/
def step (s : PageState) : Action → PageState × List Effect
  | Action.initiate resp conn => initiateWarmTransfer s resp conn
  | Action.speakStart t => speakSummary s t
  | Action.speakDone => onSpeakDone s
  | Action.speakFail => onSpeakFail s
  | Action.legacy => completeTransfer s
  | Action.legacyCleanup => onLegacyCleanup s
  | Action.relocate tok => moveCallerToAgentB s tok
  | Action.relocAck => onRelocAck s
  | Action.relocCleanup => onRelocCleanup s
  | Action.cancel => cancelTransfer s

/-- Run a sequence of events, accumulating effects in order. -/
def runActions : PageState → List Action → PageState × List Effect
  | s, [] => (s, [])
  | s, a :: rest =>
      ((runActions (step s a).1 rest).1,
       (step s a).2 ++ (runActions (step s a).1 rest).2)

/-- Observable side effects of the `LiveRoom` component, with the room
instance id each provider call targets. -/
inductive LrEffect
  | setupListeners (roomInstance : Nat)
  | connectReq (roomInstance : Nat)
  | micEnable (roomInstance : Nat)
  | removeAudioEls
  | disconnectReq (roomInstance : Nat)
deriving DecidableEq, Repr

/-- State of one `LiveRoom` component (LiveRoom.jsx).  `nextRoomId`
numbers the `new Room()` allocations; `liveConns` is the set of room
instances whose provider connection is currently live (a connection
becomes live on a successful `connect` and dies only on a
`disconnect`). -/
structure LiveRoomState where
  nextRoomId : Nat
  roomRef : Option Nat
  room : Option Nat
  isConnecting : Bool
  isConnected : Bool
  error : Option String
  participants : List String
  localAudioEnabled : Bool
  liveConns : List Nat
deriving DecidableEq, Repr

/-- `connectToRoom` (LiveRoom.jsx lines 41-80).  `o` is the outcome of
`newRoom.connect`, `m` of `enableMicrophone`.  Note the function never
inspects the existing connection: it always allocates a fresh `Room`
and overwrites `roomRef.current`. -/
def connectToRoom (o m : Outcome Unit) (ls : LiveRoomState) : LiveRoomState × List LrEffect :=
  let rid := ls.nextRoomId
  let ls1 := { ls with nextRoomId := rid + 1, roomRef := some rid, room := some rid,
                       error := none, isConnecting := false }
  match o with
  | Outcome.ok _ =>
      let ls2 := { ls1 with isConnected := true, liveConns := rid :: ls.liveConns }
      match m with
      | Outcome.ok _ =>
          ({ ls2 with localAudioEnabled := true },
           [LrEffect.setupListeners rid, LrEffect.connectReq rid, LrEffect.micEnable rid])
      | Outcome.err _ =>
          (ls2,
           [LrEffect.setupListeners rid, LrEffect.connectReq rid, LrEffect.micEnable rid])
  | Outcome.err msg =>
      ({ ls1 with isConnected := false,
                  error := some ("Failed to connect: " ++ msg) },
       [LrEffect.setupListeners rid, LrEffect.connectReq rid])

/-- `disconnectFromRoom` (LiveRoom.jsx lines 163-188): a no-op when
`roomRef.current` is already null. -/
def disconnectFromRoom (ls : LiveRoomState) : LiveRoomState × List LrEffect :=
  match ls.roomRef with
  | none => (ls, [])
  | some rid =>
      ({ ls with roomRef := none, room := none, isConnected := false,
                 participants := [], localAudioEnabled := false,
                 liveConns := ls.liveConns.erase rid },
       [LrEffect.removeAudioEls, LrEffect.disconnectReq rid])

/-- Initial state of a freshly mounted `LiveRoom`. -/
def initialLiveRoomState : LiveRoomState :=
  { nextRoomId := 0, roomRef := none, room := none, isConnecting := false,
    isConnected := false, error := none, participants := [],
    localAudioEnabled := false, liveConns := [] }

/-- HTTP methods seen by the API routes. -/
inductive Method
  | get
  | post
  | put
  | delete
  | patch
deriving DecidableEq, Repr

/-- Response produced by an API route via `res.status(...).json(...)`:
either an error object with `error`/`message` strings or a forwarded
backend payload. -/
structure ApiResponse where
  status : Nat
  error : Option String
  message : Option String
  payload : Option String
deriving DecidableEq, Repr

/-- Outcome of the `axios.post` to the backend, matching the three
branches of the route error handlers: `error.response`,
`error.request`, and any other error. -/
inductive BackendOutcome
  | ok (payload : String)
  | respErr (status : Nat) (detail : Option String)
  | reqErr
  | otherErr
deriving DecidableEq, Repr

/-- Network calls the API routes make to the backend. -/
inductive ServerEffect
  | backendTransfer (fromRoom agentA agentB newRoom transcript summary : Option String)
  | backendToken (identity room : Option String)
deriving DecidableEq, Repr

/-- The 405 response shared verbatim by all three routes. -/
def methodNotAllowedResp : ApiResponse :=
  { status := 405, error := some "Method not allowed",
    message := some "This endpoint only accepts POST requests", payload := none }

namespace TransferApi

/-- Request body of `/api/transfer`; absent fields are `none`. -/
structure Body where
  fromRoom : Option String
  agentA : Option String
  agentB : Option String
  newRoom : Option String
  transcript : Option String
  summary : Option String
deriving DecidableEq, Repr

/-- `/api/transfer` route handler (src/frontend/pages/api/transfer.js). -/
def handler (m : Method) (b : Body) (k : BackendOutcome) : ApiResponse × List ServerEffect :=
  if m ≠ Method.post then
    (methodNotAllowedResp, [])
  else if !jsTruthy b.fromRoom || !jsTruthy b.agentA || !jsTruthy b.agentB then
    ({ status := 400, error := some "Missing required fields",
       message := some "fromRoom, agentA, and agentB are required", payload := none }, [])
  else
    let eff := [ServerEffect.backendTransfer b.fromRoom b.agentA b.agentB
                  b.newRoom b.transcript b.summary]
    match k with
    | BackendOutcome.ok p =>
        ({ status := 200, error := none, message := none, payload := some p }, eff)
    | BackendOutcome.respErr st d =>
        ({ status := st, error := some "Backend error",
           message := some (jsOr d "Failed to initiate transfer"), payload := none }, eff)
    | BackendOutcome.reqErr =>
        ({ status := 503, error := some "Service unavailable",
           message := some "Cannot connect to backend service. Please ensure the backend is running.",
           payload := none }, eff)
    | BackendOutcome.otherErr =>
        ({ status := 500, error := some "Internal server error",
           message := some "An unexpected error occurred during transfer", payload := none }, eff)

end TransferApi

namespace MoveCallerApi

/-- Request body of `/api/move-caller`. -/
structure Body where
  callerIdentity : Option String
  newRoom : Option String
deriving DecidableEq, Repr

/-- `/api/move-caller` route handler (src/unnamed/part_000, first
route). -/
def handler (m : Method) (b : Body) (k : BackendOutcome) : ApiResponse × List ServerEffect :=
  if m ≠ Method.post then
    (methodNotAllowedResp, [])
  else if !jsTruthy b.callerIdentity || !jsTruthy b.newRoom then
    ({ status := 400, error := some "Missing required fields",
       message := some "callerIdentity and newRoom are required", payload := none }, [])
  else
    let eff := [ServerEffect.backendToken b.callerIdentity b.newRoom]
    match k with
    | BackendOutcome.ok p =>
        ({ status := 200, error := none, message := none, payload := some p }, eff)
    | BackendOutcome.respErr st d =>
        ({ status := st, error := some "Backend error",
           message := some (jsOr d "Failed to generate caller token"), payload := none }, eff)
    | BackendOutcome.reqErr =>
        ({ status := 503, error := some "Service unavailable",
           message := some "Cannot connect to backend service. Please ensure the backend is running.",
           payload := none }, eff)
    | BackendOutcome.otherErr =>
        ({ status := 500, error := some "Internal server error",
           message := some "An unexpected error occurred while moving caller", payload := none }, eff)

end MoveCallerApi

namespace TokenApi

/-- Request body of `/api/token`. -/
structure Body where
  identity : Option String
  room : Option String
deriving DecidableEq, Repr

/-- `/api/token` route handler (src/unnamed/part_000, second route). -/
def handler (m : Method) (b : Body) (k : BackendOutcome) : ApiResponse × List ServerEffect :=
  if m ≠ Method.post then
    (methodNotAllowedResp, [])
  else if !jsTruthy b.identity || !jsTruthy b.room then
    ({ status := 400, error := some "Missing required fields",
       message := some "Both identity and room are required", payload := none }, [])
  else
    let eff := [ServerEffect.backendToken b.identity b.room]
    match k with
    | BackendOutcome.ok p =>
        ({ status := 200, error := none, message := none, payload := some p }, eff)
    | BackendOutcome.respErr st d =>
        ({ status := st, error := some "Backend error",
           message := some (jsOr d "Failed to get token from backend"), payload := none }, eff)
    | BackendOutcome.reqErr =>
        ({ status := 503, error := some "Service unavailable",
           message := some "Cannot connect to backend service. Please ensure the backend is running.",
           payload := none }, eff)
    | BackendOutcome.otherErr =>
        ({ status := 500, error := some "Internal server error",
           message := some "An unexpected error occurred", payload := none }, eff)

end TokenApi

/-- A transfer result as returned for Scenario A of the spec; used as a
concrete evaluation point. -/
def tr0 : TransferResult :=
  { summary := "Customer has a billing issue", newRoom := "transfer-support-1-174"
    agentAToken := "tokA", agentBToken := "tokB", wsUrl := "wss://example.livekit" }

/-- A page state in the ReadyToComplete stage (speech finished, both
rooms referenced). -/
def ready0 : PageState :=
  { roomId := "support-1", agentIdentity := "a1", agentBIdentity := "b1"
    callerIdentity := "caller-9", transcript := "billing issue"
    isTransferring := true
    transferStep := "Summary delivered. Ready to complete transfer."
    transferError := "", transferData := some tr0, isMovingCaller := false
    isSpeaking := false, speechSupported := true
    primaryRef := true, primaryConnected := true, secondaryRef := true }

/-- A page state mid-speech (speech synthesis active). -/
def speaking0 : PageState :=
  { ready0 with transferStep := "Speaking summary to Agent B...", isSpeaking := true }

/-- `initiateWarmTransfer` never disconnects the primary room on any of
its branches. -/
theorem initiate_no_primary (s : PageState) (resp : Outcome TransferResult) (conn : Outcome Unit) :
    Effect.disconnectPrimary ∉ (initiateWarmTransfer s resp conn).2 := by
  unfold initiateWarmTransfer
  by_cases h : jsTrim s.agentBIdentity = ""
  · simp [h]
  · cases resp with
    | err m => simp [h]
    | ok tr => cases conn with
      | err m => simp [h]
      | ok u => simp [h]

/-- `moveCallerToAgentB` itself never disconnects the primary room:
only its acknowledgement callback does. -/
theorem reloc_no_primary (s : PageState) (tok : Outcome Unit) :
    Effect.disconnectPrimary ∉ (moveCallerToAgentB s tok).2 := by
  unfold moveCallerToAgentB
  rcases hd : s.transferData with _ | td
  · simp
  · by_cases h : jsTrim s.callerIdentity = ""
    · simp [h]
    · cases tok with
      | err m => simp [h]
      | ok u => simp [h]

/-- `cancelTransfer` never disconnects the primary room. -/
theorem cancel_no_primary (s : PageState) :
    Effect.disconnectPrimary ∉ (cancelTransfer s).2 := by
  unfold cancelTransfer
  by_cases h1 : s.secondaryRef <;> by_cases h2 : s.isSpeaking <;> simp [h1, h2]

/-- `speakSummary` never disconnects the primary room. -/
theorem speak_no_primary (s : PageState) (t : String) :
    Effect.disconnectPrimary ∉ (speakSummary s t).2 := by
  unfold speakSummary
  by_cases h : s.speechSupported = false <;> simp [h]

/-- No event other than the relocation acknowledgement and the legacy
completion emits a primary-room disconnect. -/
theorem step_no_primary (s : PageState) (a : Action)
    (h1 : a ≠ Action.relocAck) (h2 : a ≠ Action.legacy) :
    Effect.disconnectPrimary ∉ (step s a).2 := by
  cases a with
  | initiate resp conn => exact initiate_no_primary s resp conn
  | speakStart t => exact speak_no_primary s t
  | speakDone => simp [step, onSpeakDone]
  | speakFail => simp [step, onSpeakFail]
  | legacy => exact absurd rfl h2
  | legacyCleanup =>
      unfold step onLegacyCleanup
      by_cases h : s.secondaryRef <;> simp [h]
  | relocate tok => exact reloc_no_primary s tok
  | relocAck => exact absurd rfl h1
  | relocCleanup =>
      unfold step onRelocCleanup
      by_cases h : s.secondaryRef <;> simp [h]
  | cancel => exact cancel_no_primary s

/-- An event trace containing neither the relocation acknowledgement
nor the legacy completion accumulates no primary-room disconnect. -/
theorem runActions_no_primary (acts : List Action) (s : PageState)
    (h : ∀ b ∈ acts, b ≠ Action.relocAck ∧ b ≠ Action.legacy) :
    Effect.disconnectPrimary ∉ (runActions s acts).2 := by
  induction acts generalizing s with
  | nil => simp [runActions]
  | cons a rest ih =>
      have ha := h a (List.mem_cons_self a rest)
      have hr : ∀ b ∈ rest, b ≠ Action.relocAck ∧ b ≠ Action.legacy :=
        fun b hb => h b (List.mem_cons_of_mem a hb)
      simp only [runActions, List.mem_append]
      push_neg
      exact ⟨step_no_primary s a ha.1 ha.2, ih (step s a).1 hr⟩

/-- An event emits a primary-room disconnect exactly when it is the
relocation acknowledgement or the legacy completion and the primary
room reference is present. -/
theorem step_primary_iff (s : PageState) (a : Action) :
    Effect.disconnectPrimary ∈ (step s a).2 ↔
      ((a = Action.relocAck ∨ a = Action.legacy) ∧ s.primaryRef = true) := by
  constructor
  · intro hmem
    by_cases h1 : a = Action.relocAck
    · subst h1
      refine ⟨Or.inl rfl, ?_⟩
      by_cases hp : s.primaryRef
      · exact hp
      · exfalso
        revert hmem
        simp [step, onRelocAck, hp]
    · by_cases h2 : a = Action.legacy
      · subst h2
        refine ⟨Or.inr rfl, ?_⟩
        by_cases hp : s.primaryRef
        · exact hp
        · exfalso
          revert hmem
          simp [step, completeTransfer, hp]
      · exact absurd hmem (step_no_primary s a h1 h2)
  · rintro ⟨(rfl | rfl), hp⟩
    · simp [step, onRelocAck, hp]
    · simp [step, completeTransfer, hp]

/-- The simulated acknowledgement timer is scheduled only when the
caller-token mint succeeded. -/
theorem ack_scheduled_only_on_mint_success (s : PageState) (tok : Outcome Unit) (d : Nat)
    (h : Effect.scheduleAck d ∈ (step s (Action.relocate tok)).2) :
    tok = Outcome.ok () := by
  cases tok with
  | ok u => rfl
  | err m =>
      exfalso
      revert h
      unfold step moveCallerToAgentB
      rcases hd : s.transferData with _ | td
      · simp
      · by_cases hc : jsTrim s.callerIdentity = "" <;> simp [hc]

/-- C1: the source (primary) room is disconnected by the orchestrator
if and only if the event is the relocation acknowledgement (the
simulated caller-move callback of `moveCallerToAgentB`) or the legacy
completion (`completeTransfer`); no trace avoiding both ever
disconnects it; and the acknowledgement callback — inside which the
disconnect happens, hence never before the acknowledgement — is only
scheduled when the caller-token mint succeeded. -/
theorem source_disconnect_iff_relocAck_or_legacy (s : PageState) (a : Action)
    (acts : List Action) (tok : Outcome Unit) (d : Nat) :
    (Effect.disconnectPrimary ∈ (step s a).2 ↔
      ((a = Action.relocAck ∨ a = Action.legacy) ∧ s.primaryRef = true))
    ∧ ((∀ b ∈ acts, b ≠ Action.relocAck ∧ b ≠ Action.legacy) →
        Effect.disconnectPrimary ∉ (runActions s acts).2)
    ∧ (Effect.scheduleAck d ∈ (step s (Action.relocate tok)).2 → tok = Outcome.ok ()) :=
  ⟨step_primary_iff s a, runActions_no_primary acts s,
   ack_scheduled_only_on_mint_success s tok d⟩

/-- C1 witness: concrete instantiation at the ReadyToComplete state. -/
theorem source_disconnect_iff_relocAck_or_legacy_witness :
    (Effect.disconnectPrimary ∈ (step ready0 Action.relocAck).2 ↔
      ((Action.relocAck = Action.relocAck ∨ Action.relocAck = Action.legacy) ∧
        ready0.primaryRef = true))
    ∧ Effect.disconnectPrimary ∉ (runActions ready0 [Action.cancel, Action.speakDone]).2
    ∧ (Outcome.ok () : Outcome Unit) = Outcome.ok () := by
  refine ⟨(source_disconnect_iff_relocAck_or_legacy ready0 Action.relocAck []
            (Outcome.ok ()) 0).1, ?_, ?_⟩
  · exact (source_disconnect_iff_relocAck_or_legacy ready0 Action.relocAck
      [Action.cancel, Action.speakDone] (Outcome.ok ()) 0).2.1 (by decide)
  · exact (source_disconnect_iff_relocAck_or_legacy ready0 Action.relocAck []
      (Outcome.ok ()) 2000).2.2 (by decide)

/-- The step string left behind by a failed caller move does not
contain the button-gating marker. -/
theorem movingStep_not_ready :
    jsIncludes "Moving caller to Agent B..." "Ready to complete" = false := by decide

/-- The step string set by the speech-error callback does not contain
the button-gating marker. -/
theorem failStep_not_ready :
    jsIncludes "Speech failed. Please manually explain to Agent B." "Ready to complete" = false := by
  decide

/-- The step string set by the speech-success callback contains the
button-gating marker. -/
theorem doneStep_ready :
    jsIncludes "Summary delivered. Ready to complete transfer." "Ready to complete" = true := by
  decide

/-- C2 (amended): when the caller-token mint fails, neither room is
disconnected, no acknowledgement timer is scheduled, both room
references and the source connection state are untouched, and the
error is surfaced via `transferError`; but the transfer does NOT
remain in the ReadyToComplete stage — `transferStep` stays
`Moving caller to Agent B...`, which hides the completion/retry
buttons (they are gated on the step containing
`Ready to complete`), so only cancellation remains available. -/
theorem mint_failure_preserves_both_rooms (s : PageState) (td : TransferResult) (msg : String)
    (h1 : s.transferData = some td) (h2 : jsTrim s.callerIdentity ≠ "") :
    Effect.disconnectPrimary ∉ (moveCallerToAgentB s (Outcome.err msg)).2
    ∧ Effect.disconnectSecondary ∉ (moveCallerToAgentB s (Outcome.err msg)).2
    ∧ (∀ d, Effect.scheduleAck d ∉ (moveCallerToAgentB s (Outcome.err msg)).2)
    ∧ (moveCallerToAgentB s (Outcome.err msg)).1.primaryRef = s.primaryRef
    ∧ (moveCallerToAgentB s (Outcome.err msg)).1.primaryConnected = s.primaryConnected
    ∧ (moveCallerToAgentB s (Outcome.err msg)).1.secondaryRef = s.secondaryRef
    ∧ (moveCallerToAgentB s (Outcome.err msg)).1.transferError = "Failed to move caller: " ++ msg
    ∧ (moveCallerToAgentB s (Outcome.err msg)).1.isMovingCaller = false
    ∧ (moveCallerToAgentB s (Outcome.err msg)).1.transferStep = "Moving caller to Agent B..."
    ∧ actionButtonsVisible (moveCallerToAgentB s (Outcome.err msg)).1 = false := by
  simp only [moveCallerToAgentB, h1]
  rw [if_neg h2]
  exact ⟨by simp, by simp, by intro d; simp, rfl, rfl, rfl, rfl, rfl, rfl, movingStep_not_ready⟩

/-- C2 counterexample: from the concrete ReadyToComplete state the
completion buttons are visible, but after a failed caller-token mint
they are not — the transfer does not remain in ReadyToComplete
eligible for retry, contradicting the claim. -/
theorem mint_failure_leaves_ready_state_cex :
    actionButtonsVisible ready0 = true
    ∧ actionButtonsVisible
        (moveCallerToAgentB ready0 (Outcome.err "Failed to generate caller token")).1 = false := by
  decide

/-- C2 witness: concrete instantiation of the amended theorem. -/
theorem mint_failure_preserves_both_rooms_witness :
    Effect.disconnectPrimary ∉ (moveCallerToAgentB ready0 (Outcome.err "boom")).2
    ∧ (moveCallerToAgentB ready0 (Outcome.err "boom")).1.primaryRef = ready0.primaryRef :=
  ⟨(mint_failure_preserves_both_rooms ready0 tr0 "boom" (by decide) (by decide)).1,
   (mint_failure_preserves_both_rooms ready0 tr0 "boom" (by decide) (by decide)).2.2.2.1⟩

/-- C3: cancellation stops speech when active, disconnects the handoff
room when referenced, clears the transfer record state, and leaves the
source room reference and connection state completely unchanged —
no primary-room disconnect is ever emitted. -/
theorem cancel_leaves_source_untouched (s : PageState) :
    (cancelTransfer s).1.primaryRef = s.primaryRef
    ∧ (cancelTransfer s).1.primaryConnected = s.primaryConnected
    ∧ Effect.disconnectPrimary ∉ (cancelTransfer s).2
    ∧ (s.isSpeaking = true → Effect.speechCancel ∈ (cancelTransfer s).2)
    ∧ (s.secondaryRef = true → Effect.disconnectSecondary ∈ (cancelTransfer s).2)
    ∧ (cancelTransfer s).1.isTransferring = false
    ∧ (cancelTransfer s).1.transferStep = ""
    ∧ (cancelTransfer s).1.transferData = none
    ∧ (cancelTransfer s).1.transferError = ""
    ∧ (cancelTransfer s).1.isMovingCaller = false
    ∧ (cancelTransfer s).1.secondaryRef = false
    ∧ (cancelTransfer s).1.isSpeaking = false := by
  unfold cancelTransfer
  by_cases h1 : s.secondaryRef <;> by_cases h2 : s.isSpeaking <;> simp [h1, h2]

/-- C3 witness: cancellation from the mid-speech state. -/
theorem cancel_leaves_source_untouched_witness :
    Effect.speechCancel ∈ (cancelTransfer speaking0).2
    ∧ Effect.disconnectSecondary ∈ (cancelTransfer speaking0).2
    ∧ (cancelTransfer speaking0).1.primaryRef = speaking0.primaryRef :=
  ⟨(cancel_leaves_source_untouched speaking0).2.2.2.1 (by decide),
   (cancel_leaves_source_untouched speaking0).2.2.2.2.1 (by decide),
   (cancel_leaves_source_untouched speaking0).1⟩

/-- C4 (amended): on a speech-synthesis error the page clears the
speaking flag and sets the step to the degraded message
`Speech failed. Please manually explain to Agent B.`; the summary text
stays available in `transferData`; but the completion actions do NOT
become available — the error step does not contain
`Ready to complete`, so the RelocateCaller/LegacyComplete buttons stay
hidden, unlike after a successful completion signal. -/
theorem speech_error_no_ready_transition (s : PageState) :
    (onSpeakFail s).1.isSpeaking = false
    ∧ (onSpeakFail s).1.transferStep = "Speech failed. Please manually explain to Agent B."
    ∧ (onSpeakFail s).1.transferData = s.transferData
    ∧ actionButtonsVisible (onSpeakFail s).1 = false
    ∧ actionButtonsVisible (onSpeakDone s).1 = true :=
  ⟨rfl, rfl, rfl, failStep_not_ready, doneStep_ready⟩

/-- C4 counterexample: from the concrete mid-speech state, the
completion buttons are visible after the success signal but hidden
after the error signal — the transfer does not move to
ReadyToComplete on a delivery error, contradicting the claim. -/
theorem speech_error_buttons_hidden_cex :
    actionButtonsVisible (onSpeakDone speaking0).1 = true
    ∧ actionButtonsVisible (onSpeakFail speaking0).1 = false := by
  decide

/-- C5: in the body sent to the transfer endpoint, exactly one of
transcript and summary is present: a non-blank notes field sends the
trimmed transcript and omits the summary; a blank one omits the
transcript and sends the fixed default string. -/
theorem exactly_one_of_transcript_or_summary (s : PageState) :
    (jsTrim s.transcript ≠ "" →
      (buildTransferBody s).transcript = some (jsTrim s.transcript)
      ∧ (buildTransferBody s).summary = none)
    ∧ (jsTrim s.transcript = "" →
      (buildTransferBody s).transcript = none
      ∧ (buildTransferBody s).summary = some "Call transfer initiated by Agent A")
    ∧ (buildTransferBody s).transcript.isSome = !(buildTransferBody s).summary.isSome := by
  unfold buildTransferBody
  by_cases h : jsTrim s.transcript = "" <;> simp [h]

/-- C5 witness: concrete bodies for a non-blank and a blank notes
field. -/
theorem exactly_one_of_transcript_or_summary_witness :
    ((buildTransferBody ready0).transcript = some (jsTrim ready0.transcript)
      ∧ (buildTransferBody ready0).summary = none)
    ∧ ((buildTransferBody { ready0 with transcript := "   " }).transcript = none
      ∧ (buildTransferBody { ready0 with transcript := "   " }).summary =
          some "Call transfer initiated by Agent A") :=
  ⟨(exactly_one_of_transcript_or_summary ready0).1 (by decide),
   (exactly_one_of_transcript_or_summary { ready0 with transcript := "   " }).2.1 (by decide)⟩

/-- C6 (amended): `connectToRoom` performs no already-connected check.
Called on a handle whose connection is live, it silently allocates a
fresh `Room`, overwrites `roomRef`, connects it without error, and
adds a second live connection — it never disconnects the old one and
never fails with an AlreadyConnected error. -/
theorem connect_silently_replaces_connection (ls : LiveRoomState) (m : Outcome Unit)
    (h : ls.isConnected = true) :
    (connectToRoom (Outcome.ok ()) m ls).1.error = none
    ∧ (connectToRoom (Outcome.ok ()) m ls).1.isConnected = true
    ∧ (connectToRoom (Outcome.ok ()) m ls).1.roomRef = some ls.nextRoomId
    ∧ (connectToRoom (Outcome.ok ()) m ls).1.liveConns = ls.nextRoomId :: ls.liveConns
    ∧ (∀ i, LrEffect.disconnectReq i ∉ (connectToRoom (Outcome.ok ()) m ls).2) := by
  cases m <;> exact ⟨rfl, rfl, rfl, rfl, by intro i; simp [connectToRoom]⟩

/-- C6 counterexample: two successful `connectToRoom` calls on the same
freshly mounted handle leave two live provider connections and no
error — refuting both the one-live-connection guarantee and the
AlreadyConnected failure. -/
theorem double_connect_two_live_cex :
    (connectToRoom (Outcome.ok ()) (Outcome.ok ()) initialLiveRoomState).1.isConnected = true
    ∧ (connectToRoom (Outcome.ok ()) (Outcome.ok ())
        (connectToRoom (Outcome.ok ()) (Outcome.ok ()) initialLiveRoomState).1).1.liveConns.length = 2
    ∧ (connectToRoom (Outcome.ok ()) (Outcome.ok ())
        (connectToRoom (Outcome.ok ()) (Outcome.ok ()) initialLiveRoomState).1).1.error = none := by
  decide

/-- C6 witness: concrete instantiation of the amended theorem on an
already-connected handle. -/
theorem connect_silently_replaces_connection_witness :
    (connectToRoom (Outcome.ok ()) (Outcome.ok ())
        (connectToRoom (Outcome.ok ()) (Outcome.ok ()) initialLiveRoomState).1).1.error = none
    ∧ (connectToRoom (Outcome.ok ()) (Outcome.ok ())
        (connectToRoom (Outcome.ok ()) (Outcome.ok ()) initialLiveRoomState).1).1.liveConns =
      (connectToRoom (Outcome.ok ()) (Outcome.ok ()) initialLiveRoomState).1.nextRoomId ::
        (connectToRoom (Outcome.ok ()) (Outcome.ok ()) initialLiveRoomState).1.liveConns :=
  ⟨(connect_silently_replaces_connection
      (connectToRoom (Outcome.ok ()) (Outcome.ok ()) initialLiveRoomState).1
      (Outcome.ok ()) (by decide)).1,
   (connect_silently_replaces_connection
      (connectToRoom (Outcome.ok ()) (Outcome.ok ()) initialLiveRoomState).1
      (Outcome.ok ()) (by decide)).2.2.2.1⟩

/-- C7: the speech-delivery timer is registered only when the transfer
fetch and the handoff-room connect both succeeded; in that case the
effect trace is exactly the ordered list fetch, connect, mic-enable,
schedule-speak with the fixed 2000 ms delay — so Speech Delivery is
never scheduled before the handoff connect has resolved
successfully. -/
theorem speak_scheduled_after_connect_with_fixed_delay (s : PageState)
    (resp : Outcome TransferResult) (conn : Outcome Unit) (d : Nat) (t : String)
    (h : Effect.scheduleSpeak d t ∈ (initiateWarmTransfer s resp conn).2) :
    conn = Outcome.ok () ∧ d = 2000 ∧
      ∃ tr, resp = Outcome.ok tr ∧ t = tr.summary ∧
        (initiateWarmTransfer s resp conn).2 =
          [Effect.fetchTransfer (buildTransferBody s),
           Effect.connectSecondary tr.wsUrl tr.agentAToken,
           Effect.enableMicSecondary,
           Effect.scheduleSpeak 2000 tr.summary] := by
  unfold initiateWarmTransfer at h ⊢
  by_cases hb : jsTrim s.agentBIdentity = ""
  · simp [hb] at h
  · cases resp with
    | err m => simp [hb] at h
    | ok tr =>
      cases conn with
      | err m => simp [hb] at h
      | ok u =>
        simp only [hb, if_neg, not_false_eq_true, List.mem_cons, List.mem_singleton,
          List.not_mem_nil, or_false] at h
        rcases h with h | h | h | h
        · exact absurd h (by simp)
        · exact absurd h (by simp)
        · exact absurd h (by simp)
        · obtain ⟨hd, ht⟩ := Effect.scheduleSpeak.injEq d t 2000 tr.summary ▸ h
          subst hd; subst ht
          exact ⟨rfl, rfl, tr, rfl, rfl, by simp [hb]⟩

/-- C7 witness: concrete successful initiation. -/
theorem speak_scheduled_after_connect_with_fixed_delay_witness :
    (Outcome.ok () : Outcome Unit) = Outcome.ok () ∧ (2000 : Nat) = 2000 ∧
      ∃ tr, (Outcome.ok tr0 : Outcome TransferResult) = Outcome.ok tr ∧
        tr0.summary = tr.summary ∧
        (initiateWarmTransfer ready0 (Outcome.ok tr0) (Outcome.ok ())).2 =
          [Effect.fetchTransfer (buildTransferBody ready0),
           Effect.connectSecondary tr.wsUrl tr.agentAToken,
           Effect.enableMicSecondary,
           Effect.scheduleSpeak 2000 tr.summary] :=
  speak_scheduled_after_connect_with_fixed_delay ready0 (Outcome.ok tr0) (Outcome.ok ())
    2000 tr0.summary (by decide)

/-- C8: a transfer request with any of fromRoom, agentA or agentB
missing (absent or empty) is rejected by the route with status 400 and
the validation message, with no backend call and no other effect; and
on the client a blank Agent B identity aborts `initiateWarmTransfer`
before the transfer fetch is even issued. -/
theorem invalid_transfer_request_rejected_before_effects :
    (∀ (b : TransferApi.Body) (k : BackendOutcome),
      (!jsTruthy b.fromRoom || !jsTruthy b.agentA || !jsTruthy b.agentB) = true →
      TransferApi.handler Method.post b k =
        ({ status := 400, error := some "Missing required fields",
           message := some "fromRoom, agentA, and agentB are required", payload := none }, []))
    ∧ (∀ (s : PageState) (resp : Outcome TransferResult) (conn : Outcome Unit),
      jsTrim s.agentBIdentity = "" →
      initiateWarmTransfer s resp conn =
        ({ s with transferError := "Please enter Agent B identity" }, [])) := by
  constructor
  · intro b k h
    simp [TransferApi.handler, h]
  · intro s resp conn h
    simp [initiateWarmTransfer, h]

/-- C8 witness: a request with an empty agentB, and a client state with
a blank Agent B identity. -/
theorem invalid_transfer_request_rejected_before_effects_witness :
    TransferApi.handler Method.post
        { fromRoom := some "support-1", agentA := some "a1", agentB := some ""
          newRoom := none, transcript := none, summary := none } BackendOutcome.reqErr =
      ({ status := 400, error := some "Missing required fields",
         message := some "fromRoom, agentA, and agentB are required", payload := none }, [])
    ∧ initiateWarmTransfer { ready0 with agentBIdentity := "  " }
        (Outcome.ok tr0) (Outcome.ok ()) =
      ({ { ready0 with agentBIdentity := "  " } with
          transferError := "Please enter Agent B identity" }, []) :=
  ⟨invalid_transfer_request_rejected_before_effects.1
      { fromRoom := some "support-1", agentA := some "a1", agentB := some ""
        newRoom := none, transcript := none, summary := none } BackendOutcome.reqErr (by decide),
   invalid_transfer_request_rejected_before_effects.2
      { ready0 with agentBIdentity := "  " } (Outcome.ok tr0) (Outcome.ok ()) (by decide)⟩

/-- C9: `disconnectFromRoom` on an already-disconnected handle is a
no-op that leaves every field unchanged and emits nothing; running it
twice always equals running it once; and a second `cancelTransfer`
right after a first one returns the same state with an empty effect
list. -/
theorem disconnect_and_cancel_idempotent (ls : LiveRoomState) (s : PageState)
    (h : ls.roomRef = none) :
    disconnectFromRoom ls = (ls, [])
    ∧ (∀ ls2 : LiveRoomState,
        disconnectFromRoom (disconnectFromRoom ls2).1 = ((disconnectFromRoom ls2).1, []))
    ∧ cancelTransfer (cancelTransfer s).1 = ((cancelTransfer s).1, []) := by
  refine ⟨by simp [disconnectFromRoom, h], ?_, rfl⟩
  intro ls2
  rcases h2 : ls2.roomRef with _ | rid <;> simp [disconnectFromRoom, h2]

/-- C9 witness: concrete fresh handle (null room ref) and the
ReadyToComplete page state. -/
theorem disconnect_and_cancel_idempotent_witness :
    disconnectFromRoom initialLiveRoomState = (initialLiveRoomState, [])
    ∧ cancelTransfer (cancelTransfer ready0).1 = ((cancelTransfer ready0).1, []) :=
  ⟨(disconnect_and_cancel_idempotent initialLiveRoomState ready0 (by decide)).1,
   (disconnect_and_cancel_idempotent initialLiveRoomState ready0 (by decide)).2.2⟩

/-- C10: each of the three API routes answers any non-POST request with
status 405 and the message `This endpoint only accepts POST requests`,
independently of the request body and of the backend (which is never
contacted — the effect list is empty). -/
theorem non_post_rejected_with_405 (m : Method) (h : m ≠ Method.post) :
    (∀ (b : TransferApi.Body) (k : BackendOutcome),
      TransferApi.handler m b k = (methodNotAllowedResp, []))
    ∧ (∀ (b : MoveCallerApi.Body) (k : BackendOutcome),
      MoveCallerApi.handler m b k = (methodNotAllowedResp, []))
    ∧ (∀ (b : TokenApi.Body) (k : BackendOutcome),
      TokenApi.handler m b k = (methodNotAllowedResp, [])) := by
  refine ⟨fun b k => ?_, fun b k => ?_, fun b k => ?_⟩
  · simp [TransferApi.handler, h]
  · simp [MoveCallerApi.handler, h]
  · simp [TokenApi.handler, h]

/-- C10 witness: a GET request against all three routes. -/
theorem non_post_rejected_with_405_witness :
    TransferApi.handler Method.get
        { fromRoom := some "support-1", agentA := some "a1", agentB := some "b1"
          newRoom := none, transcript := none, summary := none } BackendOutcome.otherErr =
      (methodNotAllowedResp, [])
    ∧ MoveCallerApi.handler Method.get
        { callerIdentity := some "caller-9", newRoom := some "transfer-1" }
        BackendOutcome.otherErr = (methodNotAllowedResp, [])
    ∧ TokenApi.handler Method.get { identity := some "a1", room := some "support-1" }
        BackendOutcome.otherErr = (methodNotAllowedResp, []) :=
  ⟨(non_post_rejected_with_405 Method.get (by decide)).1 _ _,
   (non_post_rejected_with_405 Method.get (by decide)).2.1 _ _,
   (non_post_rejected_with_405 Method.get (by decide)).2.2 _ _⟩

end WarmTransfer
